import Mathlib

/-!
Verification of the sqlite3-backed entry store of `src/main.py`
(`SqliteApp`): a shallow embedding of the storage-layer operations
`init_sqlite3`, `ingest_sqlite3`, `delete_sqlite_entries` and
`load_button`, with theorems settling the spec's claims about them.

The sqlite file is modelled by `DBState`; each Python function becomes a
Lean function on that state.  Python exceptions are modelled by `Except
PyExc`; a function whose body catches every exception (the bare
`except:` blocks of the source) returns a plain value, while an
exception that escapes the function shows up in its result type.
-/

/-- A stored record of the `entries` table: columns `(text, color)`,
both TEXT (src/main.py line 84). -/
structure Entry where
  text : String
  color : String
deriving DecidableEq

/-- `DB_NAME = 'test.db'` (src/main.py line 24). -/
def DB_NAME : String := "test.db"

/-- `COLORS` palette (src/main.py line 25). -/
def COLORS : List String :=
  ["1_0.0_0.0", "0.0_1_0.0", "0.0_0.0_1", "0.5_0.5_0.5", "0.0_0.0_0.0", "1_1_1"]

/-- `TEXTS` palette (src/main.py lines 26-33). -/
def TEXTS : List String :=
  ["Test text 1", "blah blah blah", "New info: top secret!",
   "Test text 2", "Lorem Ipsum", "That\'s My Bag"]

/-- Python exceptions the storage layer can meet. -/
inductive PyExc where
  /-- `NameError`: a bare name not bound in the module namespace. -/
  | nameError : PyExc
  /-- `sqlite3.OperationalError`: unable to open the file, or a query
  against a missing table. -/
  | operationalError : PyExc
deriving DecidableEq

/-- State of the sqlite database file a path resolves to. -/
inductive DBState where
  /-- `sqlite3.connect` itself fails: invalid or unwritable path. -/
  | unwritable : DBState
  /-- The file can be opened (or is created by `connect`) but has no
  `entries` table. -/
  | noTable : DBState
  /-- The `entries` table exists and holds `rows`, in storage order. -/
  | table (rows : List Entry) : DBState
deriving DecidableEq

/-- `SELECT * FROM entries;` followed by `fetchall()`: all rows in
storage order; raises if the connection or the table is missing. -/
def sqlSelectAll : DBState → Except PyExc (List Entry)
  | .unwritable => .error .operationalError
  | .noTable => .error .operationalError
  | .table rows => .ok rows

/-- `INSERT INTO entries VALUES (?, ?)`: appends one row; raises if the
connection or the table is missing. -/
def sqlInsert (st : DBState) (e : Entry) : Except PyExc DBState :=
  match st with
  | .unwritable => .error .operationalError
  | .noTable => .error .operationalError
  | .table rows => .ok (.table (rows ++ [e]))

/-- `DELETE FROM <table_name>;` — the source interpolates `table_name`
into the SQL text (src/main.py line 148); only `entries` exists in this
schema, so any other name raises `OperationalError`. -/
def sqlDeleteFrom (st : DBState) (table_name : String) : Except PyExc DBState :=
  match st with
  | .unwritable => .error .operationalError
  | .noTable => .error .operationalError
  | .table _ =>
      if table_name = "entries" then .ok (.table []) else .error .operationalError

/-- `random.choice(l)` for a nonempty list, driven by an arbitrary pick
`p` supplied by the random source: some element of `l`. -/
def pyChoice (l : List String) (h : l ≠ []) (p : Nat) : String :=
  l.get ⟨p % l.length, Nat.mod_lt _ (List.length_pos.mpr h)⟩

/-- The `count` computed at src/main.py line 85:
`len(cursor.execute("SELECT COUNT(*) FROM entries").fetchall())`.
`fetchall()` on a `SELECT COUNT(*)` query yields exactly one row (the
single aggregate row `(rows.length,)`), so this is the length of a
one-element list. -/
def entriesCount (rows : List Entry) : Nat :=
  (([[rows.length]] : List (List Nat))).length

/-- The seed batch built by the loop at src/main.py lines 90-97: `n`
iterations, each drawing `text = random.choice(TEXTS)` and
`color = random.choice(COLORS)` from independent pick streams `t`, `c`. -/
def seedBatch (t c : Nat → Nat) (n : Nat) : List Entry :=
  (List.range n).map fun i =>
    { text := pyChoice TEXTS (by decide) (t i),
      color := pyChoice COLORS (by decide) (c i) }

/-- `init_sqlite3(sqlite_dir)` (src/main.py lines 73-108), with the
random source supplied as pick streams `t`, `c`.
Control flow of the source:
* `sqlite_dir is None` (line 78): the body calls `logging.debug(...)`
  at line 79, but the module never imports `logging` (only kivy's
  `Logger`), so the bare name raises `NameError`; lines 78-80 sit
  before the `try:` of line 81, hence the exception escapes the
  function — modelled as `Except.error .nameError`.
* otherwise everything from `connect` on runs under `try ... except:`;
  any exception is caught and `success` stays `False`.
* `CREATE TABLE IF NOT EXISTS` turns `noTable` into an empty table.
* `count` is `entriesCount rows` (always 1, see `entriesCount`), and
  since `¬ count ≥ 100`, the loop inserts `101 - count` rows. -/
def init_sqlite3 (sqlite_dir : Option String) (t c : Nat → Nat) (st : DBState) :
    Except PyExc (Bool × DBState) :=
  match sqlite_dir with
  | none => .error .nameError
  | some _ =>
      match st with
      | .unwritable => .ok (false, .unwritable)
      | .noTable =>
          let count := entriesCount []
          if ¬ count ≥ 100 then
            .ok (true, .table ([] ++ seedBatch t c (101 - count)))
          else
            .ok (true, .table [])
      | .table rows =>
          let count := entriesCount rows
          if ¬ count ≥ 100 then
            .ok (true, .table (rows ++ seedBatch t c (101 - count)))
          else
            .ok (true, .table rows)

/-- The database state after `init_sqlite3` returns: on the caught-
exception path the file is left as it was. -/
def initState (sqlite_dir : Option String) (t c : Nat → Nat) (st : DBState) : DBState :=
  match init_sqlite3 sqlite_dir t c st with
  | .ok (_, st') => st'
  | .error _ => st

/-- `ingest_sqlite3(sqlite_path)` (src/main.py lines 128-141):
`entry_list = []`, then under `try ... except:` a `SELECT *` whose
`fetchall()` replaces `entry_list`; every exception is caught and
logged, so a failed read returns the untouched empty list. -/
def ingest_sqlite3 (st : DBState) : List Entry :=
  match sqlSelectAll st with
  | .ok rows => rows
  | .error _ => []

/-- `delete_sqlite_entries(sqlite_path, table_name)` (src/main.py lines
143-159): `DELETE FROM <table_name>` then commit under
`try ... except:`; returns `False` on any exception, `True` otherwise,
paired with the resulting file state. -/
def delete_sqlite_entries (st : DBState) (table_name : String) : Bool × DBState :=
  match sqlDeleteFrom st table_name with
  | .ok st' => (true, st')
  | .error _ => (false, st)

/-- A Python value as it occurs in the button-descriptor tuple: the
split produces `str`s, the appended alpha is the `int` literal `1`. -/
inductive PyVal where
  | str : String → PyVal
  | int : Int → PyVal
deriving DecidableEq

/-- Python's `s.split(sep)` for a one-character separator, on the
character list: splits at every occurrence of `sep`, keeping empty
segments, and yields `[""]` on the empty string. -/
def pySplit (sep : Char) : List Char → List (List Char)
  | [] => [[]]
  | ch :: rest =>
      if ch = sep then [] :: pySplit sep rest
      else
        match pySplit sep rest with
        | [] => [[ch]]
        | p :: ps => (ch :: p) :: ps

/-- `button_tuple[1].split('_')` as a list of strings. -/
def strSplit (sep : Char) (s : String) : List String :=
  (pySplit sep s.data).map fun l => ⟨l⟩

/-- `load_button(button_tuple)` (src/main.py lines 181-187), restricted
to the data it computes: the button's `text`, and its
`background_color = tuple(button_tuple[1].split('_') + [1,])` — the
split segments (strings) with the integer `1` appended.  The tuple is
modelled as a `List PyVal` since its length depends on the input. -/
def load_button (button_tuple : String × String) : String × List PyVal :=
  (button_tuple.1, (strSplit '_' button_tuple.2).map PyVal.str ++ [PyVal.int 1])

-- Helper lemmas --------------------------------------------------------

lemma pySplit_ne_nil (sep : Char) (l : List Char) : pySplit sep l ≠ [] := by
  cases l with
  | nil => simp [pySplit]
  | cons ch rest =>
      simp only [pySplit]
      split
      · simp
      · split
        · simp
        · simp

lemma pySplit_length (sep : Char) (l : List Char) :
    (pySplit sep l).length = l.count sep + 1 := by
  induction l with
  | nil => simp [pySplit]
  | cons ch rest ih =>
      simp only [pySplit]
      by_cases h : ch = sep
      · simp [h, ih, List.count_cons]
      · simp only [if_neg h]
        cases hrec : pySplit sep rest with
        | nil => exact absurd hrec (pySplit_ne_nil sep rest)
        | cons p ps =>
            have : (p :: ps).length = rest.count sep + 1 := by
              rw [← hrec]; exact ih
            simp only [List.length_cons] at this ⊢
            simp [List.count_cons, h, ← this]

lemma seedBatch_length (t c : Nat → Nat) (n : Nat) : (seedBatch t c n).length = n := by
  simp [seedBatch]

lemma seedBatch_mem (t c : Nat → Nat) (n : Nat) (e : Entry) (h : e ∈ seedBatch t c n) :
    e.text ∈ TEXTS ∧ e.color ∈ COLORS := by
  simp only [seedBatch, List.mem_map, List.mem_range] at h
  obtain ⟨i, _, rfl⟩ := h
  exact ⟨List.get_mem _ _ _, List.get_mem _ _ _⟩

lemma entriesCount_eq_one (rows : List Entry) : entriesCount rows = 1 := rfl

lemma init_table_eq (d : String) (t c : Nat → Nat) (rows : List Entry) :
    init_sqlite3 (some d) t c (.table rows) =
      .ok (true, .table (rows ++ seedBatch t c 100)) := rfl

lemma init_noTable_eq (d : String) (t c : Nat → Nat) :
    init_sqlite3 (some d) t c .noTable = .ok (true, .table (seedBatch t c 100)) := rfl

lemma initState_table (d : String) (t c : Nat → Nat) (rows : List Entry) :
    initState (some d) t c (.table rows) = .table (rows ++ seedBatch t c 100) := by
  simp [initState, init_table_eq]

/-- Executing a sequence of `INSERT INTO entries` statements in order,
each applied to the state the previous one produced (a failed insert
leaves the state unchanged). -/
def insertAll (st : DBState) (es : List Entry) : DBState :=
  es.foldl (fun s e => match sqlInsert s e with | .ok s' => s' | .error _ => s) st

lemma insertAll_table (rows es : List Entry) :
    insertAll (.table rows) es = .table (rows ++ es) := by
  induction es generalizing rows with
  | nil => simp [insertAll]
  | cons e es ih =>
      have step : insertAll (.table rows) (e :: es) = insertAll (.table (rows ++ [e])) es := rfl
      rw [step, ih]
      simp

-- Claim theorems -------------------------------------------------------

/-- C1 (code-bug demonstration): `init_sqlite3` on an `entries` table
with 0 rows produces a table with 100 rows, not the 101 the spec
states; and on a table that already has 100 rows it inserts 100 more
(200 total) instead of performing no inserts.  Root cause: the
`count` of src/main.py line 85 is the length of `fetchall()` on a
`COUNT(*)` query, which is always 1 (see `entriesCount`). -/
theorem init_row_count_diverges_from_spec :
    (ingest_sqlite3 (initState (some "d") (fun _ => 0) (fun _ => 0) (.table []))).length
        = 100 ∧
    (seedBatch (fun _ => 0) (fun _ => 0) 100).length = 100 ∧
    (ingest_sqlite3 (initState (some "d") (fun _ => 0) (fun _ => 0)
        (.table (seedBatch (fun _ => 0) (fun _ => 0) 100)))).length = 200 := by
  refine ⟨?_, seedBatch_length _ _ _, ?_⟩
  · rw [initState_table]
    simp [ingest_sqlite3, sqlSelectAll, seedBatch_length]
  · rw [initState_table]
    simp [ingest_sqlite3, sqlSelectAll, seedBatch_length]

/-- C2: for every prior contents of the `entries` table, the `count`
computed by `init_sqlite3` is the length of `fetchall()` on the single
`COUNT(*)` row, hence always 1; consequently whenever the insert loop
is reached it inserts exactly `101 - 1 = 100` new rows, regardless of
how many rows the table already contains. -/
theorem init_count_always_one_inserts_100 (d : String) (t c : Nat → Nat)
    (rows : List Entry) :
    entriesCount rows = 1 ∧
    ∃ newRows : List Entry, newRows.length = 100 ∧
      init_sqlite3 (some d) t c (.table rows) = .ok (true, .table (rows ++ newRows)) :=
  ⟨rfl, seedBatch t c 100, seedBatch_length t c 100, init_table_eq d t c rows⟩

/-- C3 counterexample: on `("Lorem Ipsum", "1_0.0_0.0")` the descriptor
built by `load_button` is not the 4-tuple of strings
`("1", "0.0", "0.0", "1")`: the appended alpha component is the
integer literal `1` (src/main.py line 184: `+ [1,]`), not the string
`"1"`. -/
theorem load_button_alpha_not_string :
    load_button ("Lorem Ipsum", "1_0.0_0.0") ≠
      ("Lorem Ipsum",
        [PyVal.str "1", PyVal.str "0.0", PyVal.str "0.0", PyVal.str "1"]) := by
  decide

/-- C3 amended: `load_button` on `("Lorem Ipsum", "1_0.0_0.0")` splits
the color string on `_` into three channel strings and appends the
integer `1` as the fixed full-opacity fourth component, yielding
`("Lorem Ipsum", ("1", "0.0", "0.0", 1))`. -/
theorem load_button_lorem_ipsum :
    load_button ("Lorem Ipsum", "1_0.0_0.0") =
      ("Lorem Ipsum",
        [PyVal.str "1", PyVal.str "0.0", PyVal.str "0.0", PyVal.int 1]) := by
  decide

/-- C4 (code-bug demonstration): `init_sqlite3(None)` raises a
`NameError` past its boundary — line 79 of src/main.py calls
`logging.debug`, but the module never imports `logging`, and lines
78-80 precede the `try:` block — while for every non-`None` path the
function returns a boolean and never raises. -/
theorem init_none_raises_nameError :
    (∀ (t c : Nat → Nat) (st : DBState),
        init_sqlite3 none t c st = Except.error PyExc.nameError) ∧
    (∀ (d : String) (t c : Nat → Nat) (st : DBState),
        ∃ (b : Bool) (st' : DBState),
          init_sqlite3 (some d) t c st = .ok (b, st')) := by
  refine ⟨fun t c st => rfl, fun d t c st => ?_⟩
  cases st with
  | unwritable => exact ⟨false, .unwritable, rfl⟩
  | noTable => exact ⟨true, _, init_noTable_eq d t c⟩
  | table rows => exact ⟨true, _, init_table_eq d t c rows⟩

/-- C5: whenever the read inside `ingest_sqlite3` fails (missing file,
missing `entries` table), the caught exception leaves `entry_list`
empty and the function returns the empty sequence; by its total type it
never raises to the caller. -/
theorem ingest_failure_returns_empty (st : DBState) (e : PyExc)
    (h : sqlSelectAll st = .error e) : ingest_sqlite3 st = [] := by
  simp [ingest_sqlite3, h]

/-- Witness for C5 at the missing-table state. -/
theorem ingest_failure_returns_empty_witness :
    sqlSelectAll DBState.noTable = Except.error PyExc.operationalError ∧
    ingest_sqlite3 DBState.noTable = [] :=
  ⟨rfl, ingest_failure_returns_empty DBState.noTable PyExc.operationalError rfl⟩

/-- C6: `delete_sqlite_entries` on the `entries` table succeeds, leaves
an empty table (schema persists, row count 0, `ingest_sqlite3` returns
the empty sequence), and a second call on the already-empty table still
returns `true` with the count staying 0. -/
theorem clear_total_idempotent (rows : List Entry) :
    delete_sqlite_entries (.table rows) "entries" = (true, .table []) ∧
    ingest_sqlite3 (.table []) = [] ∧
    (ingest_sqlite3 (.table [])).length = 0 ∧
    delete_sqlite_entries (.table []) "entries" = (true, .table []) :=
  ⟨rfl, rfl, rfl, rfl⟩

/-- C7: the seed top-up is purely additive — initialization maps a
table holding `rows` to a table holding `rows ++ newRows`: every
pre-existing row survives in place and only appended inserts occur. -/
theorem init_topup_additive (d : String) (t c : Nat → Nat) (rows : List Entry) :
    ∃ newRows : List Entry,
      initState (some d) t c (.table rows) = .table (rows ++ newRows) :=
  ⟨seedBatch t c 100, initState_table d t c rows⟩

/-- C8: every row produced by the seed batch draws its `text` from the
`TEXTS` palette and its `color` from the `COLORS` palette (via
independent pick streams `t` and `c`); hence after a fresh
initialization every listed entry's text and color lie in the
palettes. -/
theorem seeded_entries_from_palettes (t c : Nat → Nat) (n : Nat) (d : String)
    (e : Entry)
    (h : e ∈ seedBatch t c n ∨
         e ∈ ingest_sqlite3 (initState (some d) t c (.table []))) :
    e.text ∈ TEXTS ∧ e.color ∈ COLORS := by
  cases h with
  | inl h => exact seedBatch_mem t c n e h
  | inr h =>
      rw [initState_table] at h
      simp only [ingest_sqlite3, sqlSelectAll, List.nil_append] at h
      exact seedBatch_mem t c 100 e h

/-- Witness for C8 at a concrete seeded entry. -/
theorem seeded_entries_from_palettes_witness :
    ((⟨"Test text 1", "1_0.0_0.0"⟩ : Entry) ∈ seedBatch (fun _ => 0) (fun _ => 0) 1 ∨
      (⟨"Test text 1", "1_0.0_0.0"⟩ : Entry) ∈
        ingest_sqlite3 (initState (some "d") (fun _ => 0) (fun _ => 0) (.table []))) ∧
    ((⟨"Test text 1", "1_0.0_0.0"⟩ : Entry).text ∈ TEXTS ∧
      (⟨"Test text 1", "1_0.0_0.0"⟩ : Entry).color ∈ COLORS) :=
  ⟨Or.inl (by decide),
    seeded_entries_from_palettes (fun _ => 0) (fun _ => 0) 1 "d" _ (Or.inl (by decide))⟩

/-- C9: executing any sequence of inserts on the (empty) `entries`
table and then listing returns each (text, color) pair exactly as many
times as it was inserted. -/
theorem listing_reflects_inserts (es : List Entry) (p : Entry) :
    (ingest_sqlite3 (insertAll (.table []) es)).count p = es.count p := by
  rw [insertAll_table]
  simp [ingest_sqlite3, sqlSelectAll]

/-- C10: for every entry tuple, the color component built by
`load_button` has length one more than the number of `_`-separated
segments of the color string (equivalently, two more than the number of
`_` characters), its last element is the integer `1`, and it is a
4-tuple exactly when the color string contains exactly two
underscores. -/
theorem load_button_color_shape (bt : String × String) :
    (load_button bt).2.length = (strSplit '_' bt.2).length + 1 ∧
    (load_button bt).2.length = bt.2.data.count '_' + 2 ∧
    (load_button bt).2.getLast? = some (PyVal.int 1) ∧
    ((load_button bt).2.length = 4 ↔ bt.2.data.count '_' = 2) := by
  have hlen : (load_button bt).2.length = (strSplit '_' bt.2).length + 1 := by
    simp [load_button]
  have hsplit : (strSplit '_' bt.2).length = bt.2.data.count '_' + 1 := by
    simp [strSplit, pySplit_length]
  refine ⟨hlen, by omega, ?_, by omega⟩
  simp [load_button]
